import Mathlib

/-
Verification of the resilience layer of the VirtualDesktopAccessor library
(src/lib.rs): the error classifier `error_side_effect`, the retry/recreate
dispatcher `with_service`, the forced-recreation entry point
`notify_explorer_restarted`, the event bridge `get_event_receiver`, and the
index/handle-validating public wrappers `rename_desktop` and
`move_window_to_desktop`.

The shallow embedding translates Rust `Result<T, Error>` to `Except Error T`.
Global mutable state (the `SERVICE` cell, the `HAS_LISTENERS` flag and the
`EVENTS` channel) is passed explicitly.  Effects of external collaborators are
passed as environment parameters:
  * `initRes` is the outcome of `com::runtime::init_runtime()` (already mapped
    into `Error` by `map_err(HRESULT::from_i32)` and the `?` conversion);
  * `factory k` is the outcome of the k-th call to
    `VirtualDesktopService::create()` made during one dispatcher call.
-/

namespace VDA

/-- Raw native status code (the Rust `HRESULT` newtype over a 32-bit code),
modelled as a natural number. -/
abbrev HRESULT := Nat

/-- Opaque comparable identifier of a virtual desktop (the Rust `DesktopID`,
whose concrete representation lives outside src/), modelled as a natural
number. -/
abbrev DesktopID := Nat

/-- Window handle (the Rust `HWND` re-exported from `interfaces`), a numeric
handle in the source's tests. -/
abbrev HWND := Nat

/-- Categorisation of a native failure code, with the exact variants matched
by `error_side_effect` in src/lib.rs.  The decoding `ComError::from(HRESULT)`
lives in the missing `comhelpers` module, so errors are carried here already
decoded. -/
inductive ComError where
  | NotInitialized
  | ClassNotRegistered
  | RpcUnavailable
  | ObjectNotConnected
  | Unknown (code : HRESULT)
deriving DecidableEq, Repr

/-- The library's error type (the Rust `Error` enum from the missing `error`
module; its variants are the ones used by src/lib.rs and named by the spec's
error taxonomy).  `ComError` carries the decoded native failure. -/
inductive Error where
  | ComError (com : ComError)
  | ServiceNotCreated
  | DesktopNotFound
  | WindowNotFound
deriving DecidableEq, Repr

/-- Error classifier `error_side_effect` from src/lib.rs.  Returns
`.ok true` for a recoverable cause, `.ok false` for a fatal one, and
propagates an initialization failure as `.error`.  The `NotInitialized`
branch performs `init_runtime()` whose outcome is the environment parameter
`initRes`; the runtime initialization is idempotent process-wide, so a fixed
outcome per dispatcher call is faithful. -/
def error_side_effect (initRes : Except Error Unit) (err : Error) :
    Except Error Bool :=
  match err with
  | .ComError com =>
    match com with
    | .NotInitialized =>
      match initRes with
      | .ok _ => .ok true
      | .error e => .error e
    | .ClassNotRegistered => .ok true
    | .RpcUnavailable => .ok true
    | .ObjectNotConnected => .ok true
    | .Unknown _ => .ok false
  | .ServiceNotCreated => .ok true
  | _ => .ok false

/-- Spec-side definition, following the spec's words only: the set of causes
the spec declares recoverable (subsystem not initialized, class not
registered, RPC unavailable, connection point disconnected, service never
created); everything else is fatal.  Compared against `error_side_effect`. -/
def specRecoverableCause (err : Error) : Bool :=
  match err with
  | .ComError .NotInitialized => true
  | .ComError .ClassNotRegistered => true
  | .ComError .RpcUnavailable => true
  | .ComError .ObjectNotConnected => true
  | .ServiceNotCreated => true
  | _ => false

instance {ε α : Type} [DecidableEq ε] [DecidableEq α] :
    DecidableEq (Except ε α) := fun x y =>
  match x, y with
  | .ok a, .ok b =>
    if h : a = b then isTrue (by rw [h])
    else isFalse (fun he => h (by injection he))
  | .ok _, .error _ => isFalse (fun h => Except.noConfusion h)
  | .error _, .ok _ => isFalse (fun h => Except.noConfusion h)
  | .error e, .error f =>
    if h : e = f then isTrue (by rw [h])
    else isFalse (fun he => h (by injection he))

/-- The live service handle (`VirtualDesktopService` from the missing
`service` module).  Modelled from the spec: it owns the connection and
validates inputs against currently-visible desktop and window identifiers;
only the parts the public wrappers use are modelled — the ordered desktop
identifiers, the currently-existing window handles, and the outcome of arming
the event subscription on this handle. -/
structure VirtualDesktopService where
  desktops : List DesktopID
  windows : List HWND
  subscribe : Except Error Unit
deriving DecidableEq, Repr

/-- Modelled from the spec: `get_desktop_by_index` resolves an ergonomic
index into a desktop identifier and fails with `DesktopNotFound` when the
index is out of range. -/
def VirtualDesktopService.get_desktop_by_index (s : VirtualDesktopService)
    (index : Nat) : Except Error DesktopID :=
  match s.desktops.get? index with
  | some d => .ok d
  | none => .error .DesktopNotFound

/-- Modelled from the spec: `rename_desktop` on the service validates the
identifier (stale identifiers fail with `DesktopNotFound`) and renames the
desktop. -/
def VirtualDesktopService.rename_desktop (s : VirtualDesktopService)
    (d : DesktopID) (_name : String) : Except Error Unit :=
  if s.desktops.contains d then .ok () else .error .DesktopNotFound

/-- Modelled from the spec: `move_window_to_desktop` on the service fails
with `WindowNotFound` when the window handle does not exist, and with
`DesktopNotFound` when the desktop identifier is stale. -/
def VirtualDesktopService.move_window_to_desktop (s : VirtualDesktopService)
    (hwnd : HWND) (d : DesktopID) : Except Error Unit :=
  if s.windows.contains hwnd then
    if s.desktops.contains d then .ok () else .error .DesktopNotFound
  else .error .WindowNotFound

/-- Modelled from the spec: `get_event_receiver` on the service arms delivery
of future desktop-change notifications (the subscription outcome stored in
the handle). -/
def VirtualDesktopService.get_event_receiver (s : VirtualDesktopService) :
    Except Error Unit :=
  s.subscribe

/-- Outcome of one `with_service` dispatcher call: the returned value, the
final content of the `SERVICE` cell, and how many times the operation
callback and the factory `VirtualDesktopService::create` were invoked. -/
structure RunResult (T : Type) where
  result : Except Error T
  state : Except Error VirtualDesktopService
  cbCalls : Nat
  factoryCalls : Nat
deriving DecidableEq, Repr

/-- The loop body of `with_service` (src/lib.rs, `for _ in 0..6`), with
explicit fuel.  `st` is the current content of the `SERVICE` cell and `fc`
the number of factory calls already made during this dispatcher call.  On a
`Ready` snapshot the callback runs; a failure is classified, a fatal verdict
returns the error unchanged, an initialization failure propagates, a
recoverable verdict falls through to recreation.  On an `Unavailable`
snapshot, the source calls `error_side_effect` but explicitly ignores its
result (the `// Ignore` + `#[allow(unused_must_use)]` block), so the branch
always falls through to recreation.  Recreation stores the factory's result
— `Ready` or `Unavailable` — as the new snapshot. -/
def withServiceAux {T : Type} (cb : VirtualDesktopService → Except Error T)
    (factory : Nat → Except Error VirtualDesktopService)
    (initRes : Except Error Unit) :
    Nat → Except Error VirtualDesktopService → Nat → RunResult T
  | 0, st, _ => ⟨.error .ServiceNotCreated, st, 0, 0⟩
  | n + 1, .ok v, fc =>
    match cb v with
    | .ok r => ⟨.ok r, .ok v, 1, 0⟩
    | .error err =>
      match error_side_effect initRes err with
      | .ok false => ⟨.error err, .ok v, 1, 0⟩
      | .error e => ⟨.error e, .ok v, 1, 0⟩
      | .ok true =>
        let rest := withServiceAux cb factory initRes n (factory fc) (fc + 1)
        ⟨rest.result, rest.state, rest.cbCalls + 1, rest.factoryCalls + 1⟩
  | n + 1, .error err, fc =>
    -- the classification's verdict is discarded in the source; only its
    -- (environment-modelled) side effect happens
    let _ := error_side_effect initRes err
    let rest := withServiceAux cb factory initRes n (factory fc) (fc + 1)
    ⟨rest.result, rest.state, rest.cbCalls, rest.factoryCalls + 1⟩

/-- Dispatcher `with_service` from src/lib.rs: up to 6 attempts starting from
the current `SERVICE` cell content `st`. -/
def with_service {T : Type} (cb : VirtualDesktopService → Except Error T)
    (factory : Nat → Except Error VirtualDesktopService)
    (initRes : Except Error Unit)
    (st : Except Error VirtualDesktopService) : RunResult T :=
  withServiceAux cb factory initRes 6 st 0

/-- Claim C1: the error classifier returns Recoverable exactly for
`ComError::NotInitialized`, `ComError::ClassNotRegistered`,
`ComError::RpcUnavailable`, `ComError::ObjectNotConnected` and
`Error::ServiceNotCreated`; every other failure — uncategorized native codes
(`ComError::Unknown`) and the domain errors `DesktopNotFound` and
`WindowNotFound` — is classified Fatal.  Stated with the runtime
initialization succeeding (its failure is a propagated error, not a
classification). -/
theorem c1_classifier_recoverable_exactly (err : Error) :
    error_side_effect (.ok ()) err = .ok (specRecoverableCause err) := by
  cases err with
  | ComError com => cases com <;> rfl
  | _ => rfl

/-- Unfolding lemma: exhausted fuel returns the terminal error and leaves the
cell at its last stored value. -/
theorem withServiceAux_zero {T : Type} (cb : VirtualDesktopService → Except Error T)
    (factory : Nat → Except Error VirtualDesktopService)
    (initRes : Except Error Unit) (st : Except Error VirtualDesktopService)
    (fc : Nat) :
    withServiceAux cb factory initRes 0 st fc =
      ⟨.error .ServiceNotCreated, st, 0, 0⟩ := rfl

/-- Unfolding lemma for an iteration that starts from a `Ready` snapshot. -/
theorem withServiceAux_ok {T : Type} (cb : VirtualDesktopService → Except Error T)
    (factory : Nat → Except Error VirtualDesktopService)
    (initRes : Except Error Unit) (n : Nat) (v : VirtualDesktopService)
    (fc : Nat) :
    withServiceAux cb factory initRes (n + 1) (.ok v) fc =
      (match cb v with
       | .ok r => ⟨.ok r, .ok v, 1, 0⟩
       | .error err =>
         match error_side_effect initRes err with
         | .ok false => ⟨.error err, .ok v, 1, 0⟩
         | .error e => ⟨.error e, .ok v, 1, 0⟩
         | .ok true =>
           let rest := withServiceAux cb factory initRes n (factory fc) (fc + 1)
           ⟨rest.result, rest.state, rest.cbCalls + 1, rest.factoryCalls + 1⟩) := rfl

/-- Unfolding lemma for an iteration that starts from an `Unavailable`
snapshot: it always recreates, whatever the stored reason. -/
theorem withServiceAux_error {T : Type} (cb : VirtualDesktopService → Except Error T)
    (factory : Nat → Except Error VirtualDesktopService)
    (initRes : Except Error Unit) (n : Nat) (err : Error) (fc : Nat) :
    withServiceAux cb factory initRes (n + 1) (.error err) fc =
      (let rest := withServiceAux cb factory initRes n (factory fc) (fc + 1)
       ⟨rest.result, rest.state, rest.cbCalls, rest.factoryCalls + 1⟩) := rfl

/-- The dispatcher loop calls the operation at most once per unit of fuel. -/
theorem withServiceAux_cbCalls_le {T : Type}
    (cb : VirtualDesktopService → Except Error T)
    (factory : Nat → Except Error VirtualDesktopService)
    (initRes : Except Error Unit) :
    ∀ (n : Nat) (st : Except Error VirtualDesktopService) (fc : Nat),
      (withServiceAux cb factory initRes n st fc).cbCalls ≤ n := by
  intro n
  induction n with
  | zero => intro st fc; simp [withServiceAux_zero]
  | succ n ih =>
    intro st fc
    cases st with
    | error err =>
      rw [withServiceAux_error]
      exact Nat.le_succ_of_le (ih _ _)
    | ok v =>
      rw [withServiceAux_ok]
      cases hcb : cb v with
      | ok r => simp
      | error err =>
        cases hcl : error_side_effect initRes err with
        | error e => simp [hcl]
        | ok b =>
          cases b with
          | false => simp [hcl]
          | true =>
            have h := ih (factory fc) (fc + 1)
            simp [hcl]
            omega

/-- The dispatcher loop calls the factory at most once per unit of fuel. -/
theorem withServiceAux_factoryCalls_le {T : Type}
    (cb : VirtualDesktopService → Except Error T)
    (factory : Nat → Except Error VirtualDesktopService)
    (initRes : Except Error Unit) :
    ∀ (n : Nat) (st : Except Error VirtualDesktopService) (fc : Nat),
      (withServiceAux cb factory initRes n st fc).factoryCalls ≤ n := by
  intro n
  induction n with
  | zero => intro st fc; simp [withServiceAux_zero]
  | succ n ih =>
    intro st fc
    cases st with
    | error err =>
      rw [withServiceAux_error]
      simpa using ih _ _
    | ok v =>
      rw [withServiceAux_ok]
      cases hcb : cb v with
      | ok r => simp
      | error err =>
        cases hcl : error_side_effect initRes err with
        | error e => simp [hcl]
        | ok b =>
          cases b with
          | false => simp [hcl]
          | true =>
            have h := ih (factory fc) (fc + 1)
            simp [hcl]
            omega

/-- Claim C2: a fatal failure raised by the operation is returned unchanged
on the first occurrence — one operation call, zero factory (recreation)
calls, the snapshot untouched. -/
theorem c2_fatal_returns_immediately {T : Type}
    (cb : VirtualDesktopService → Except Error T)
    (factory : Nat → Except Error VirtualDesktopService)
    (initRes : Except Error Unit) (v : VirtualDesktopService) (err : Error)
    (hcb : cb v = .error err)
    (hfatal : error_side_effect initRes err = .ok false) :
    with_service cb factory initRes (.ok v) =
      ⟨.error err, .ok v, 1, 0⟩ := by
  rw [with_service, show (6 : Nat) = 5 + 1 from rfl, withServiceAux_ok]
  simp only [hcb, hfatal]

/-- Witness for C2 at a concrete fatal cause (`DesktopNotFound`). -/
theorem c2_fatal_returns_immediately_witness :
    ((fun _ : VirtualDesktopService =>
        (Except.error Error.DesktopNotFound : Except Error Unit))
      ⟨[0], [1], .ok ()⟩ = .error .DesktopNotFound)
    ∧ error_side_effect (.ok ()) .DesktopNotFound = .ok false
    ∧ with_service
        (fun _ : VirtualDesktopService =>
          (Except.error Error.DesktopNotFound : Except Error Unit))
        (fun _ => .error .ServiceNotCreated) (.ok ()) (.ok ⟨[0], [1], .ok ()⟩) =
        ⟨.error .DesktopNotFound, .ok ⟨[0], [1], .ok ()⟩, 1, 0⟩ :=
  ⟨rfl, rfl,
    c2_fatal_returns_immediately _ _ _ _ _ rfl rfl⟩

/-- Claim C3: a recoverable failure raised by the operation triggers exactly
one recreation attempt — one factory invocation, whose result (`Ready` or
`Unavailable`) becomes the snapshot the continuation starts from — before the
next classify step, and the whole call stays within the cap of 6 factory
invocations and 6 operation invocations. -/
theorem c3_recoverable_recreates_once {T : Type}
    (cb : VirtualDesktopService → Except Error T)
    (factory : Nat → Except Error VirtualDesktopService)
    (initRes : Except Error Unit) (v : VirtualDesktopService) (err : Error)
    (hcb : cb v = .error err)
    (hrec : error_side_effect initRes err = .ok true) :
    with_service cb factory initRes (.ok v) =
      ⟨(withServiceAux cb factory initRes 5 (factory 0) 1).result,
       (withServiceAux cb factory initRes 5 (factory 0) 1).state,
       (withServiceAux cb factory initRes 5 (factory 0) 1).cbCalls + 1,
       (withServiceAux cb factory initRes 5 (factory 0) 1).factoryCalls + 1⟩
    ∧ (with_service cb factory initRes (.ok v)).factoryCalls ≤ 6
    ∧ (with_service cb factory initRes (.ok v)).cbCalls ≤ 6 := by
  refine ⟨?_, withServiceAux_factoryCalls_le cb factory initRes 6 _ 0,
    withServiceAux_cbCalls_le cb factory initRes 6 _ 0⟩
  rw [with_service, show (6 : Nat) = 5 + 1 from rfl, withServiceAux_ok]
  simp only [hcb, hrec]

/-- Witness for C3 at a concrete recoverable cause
(`ComError::RpcUnavailable`). -/
theorem c3_recoverable_recreates_once_witness :
    ((fun _ : VirtualDesktopService =>
        (Except.error (Error.ComError .RpcUnavailable) : Except Error Unit))
      ⟨[0], [1], .ok ()⟩ = .error (.ComError .RpcUnavailable))
    ∧ error_side_effect (.ok ()) (.ComError .RpcUnavailable) = .ok true
    ∧ (with_service
        (fun _ : VirtualDesktopService =>
          (Except.error (Error.ComError .RpcUnavailable) : Except Error Unit))
        (fun _ => .error .ServiceNotCreated) (.ok ()) (.ok ⟨[0], [1], .ok ()⟩) =
        ⟨(withServiceAux
            (fun _ : VirtualDesktopService =>
              (Except.error (Error.ComError .RpcUnavailable) : Except Error Unit))
            (fun _ => .error .ServiceNotCreated) (.ok ()) 5
            ((fun _ => (.error .ServiceNotCreated :
                Except Error VirtualDesktopService)) 0) 1).result,
         (withServiceAux
            (fun _ : VirtualDesktopService =>
              (Except.error (Error.ComError .RpcUnavailable) : Except Error Unit))
            (fun _ => .error .ServiceNotCreated) (.ok ()) 5
            ((fun _ => (.error .ServiceNotCreated :
                Except Error VirtualDesktopService)) 0) 1).state,
         (withServiceAux
            (fun _ : VirtualDesktopService =>
              (Except.error (Error.ComError .RpcUnavailable) : Except Error Unit))
            (fun _ => .error .ServiceNotCreated) (.ok ()) 5
            ((fun _ => (.error .ServiceNotCreated :
                Except Error VirtualDesktopService)) 0) 1).cbCalls + 1,
         (withServiceAux
            (fun _ : VirtualDesktopService =>
              (Except.error (Error.ComError .RpcUnavailable) : Except Error Unit))
            (fun _ => .error .ServiceNotCreated) (.ok ()) 5
            ((fun _ => (.error .ServiceNotCreated :
                Except Error VirtualDesktopService)) 0) 1).factoryCalls + 1⟩
      ∧ (with_service
          (fun _ : VirtualDesktopService =>
            (Except.error (Error.ComError .RpcUnavailable) : Except Error Unit))
          (fun _ => .error .ServiceNotCreated) (.ok ())
          (.ok ⟨[0], [1], .ok ()⟩)).factoryCalls ≤ 6
      ∧ (with_service
          (fun _ : VirtualDesktopService =>
            (Except.error (Error.ComError .RpcUnavailable) : Except Error Unit))
          (fun _ => .error .ServiceNotCreated) (.ok ())
          (.ok ⟨[0], [1], .ok ()⟩)).cbCalls ≤ 6) :=
  ⟨rfl, rfl, c3_recoverable_recreates_once _ _ _ _ _ rfl rfl⟩

/-- The classifier only signals an error when the runtime initialization
itself failed with that error. -/
theorem error_side_effect_error_inv (initRes : Except Error Unit)
    (err e : Error) (h : error_side_effect initRes err = .error e) :
    initRes = .error e := by
  cases err with
  | ComError com =>
    cases com <;> cases initRes <;> simp_all [error_side_effect]
  | ServiceNotCreated => cases initRes <;> simp_all [error_side_effect]
  | DesktopNotFound => cases initRes <;> simp_all [error_side_effect]
  | WindowNotFound => cases initRes <;> simp_all [error_side_effect]

/-- Every dispatcher run ends in one of four ways: a value produced by the
operation, an error the classifier judged fatal, a propagated runtime
initialization failure, or the terminal `ServiceNotCreated`. -/
theorem withServiceAux_result_cases {T : Type}
    (cb : VirtualDesktopService → Except Error T)
    (factory : Nat → Except Error VirtualDesktopService)
    (initRes : Except Error Unit) :
    ∀ (n : Nat) (st : Except Error VirtualDesktopService) (fc : Nat),
      (∃ r, (withServiceAux cb factory initRes n st fc).result = .ok r)
      ∨ (∃ e, (withServiceAux cb factory initRes n st fc).result = .error e
          ∧ error_side_effect initRes e = .ok false)
      ∨ (∃ e, (withServiceAux cb factory initRes n st fc).result = .error e
          ∧ initRes = .error e)
      ∨ (withServiceAux cb factory initRes n st fc).result =
          .error .ServiceNotCreated := by
  intro n
  induction n with
  | zero => intro st fc; right; right; right; rfl
  | succ n ih =>
    intro st fc
    cases st with
    | error err =>
      rw [withServiceAux_error]
      simpa using ih (factory fc) (fc + 1)
    | ok v =>
      rw [withServiceAux_ok]
      cases hcb : cb v with
      | ok r => exact Or.inl ⟨r, by simp⟩
      | error err =>
        cases hcl : error_side_effect initRes err with
        | error e =>
          exact Or.inr (Or.inr (Or.inl ⟨e, by simp [hcl],
            error_side_effect_error_inv _ _ _ hcl⟩))
        | ok b =>
          cases b with
          | false => exact Or.inr (Or.inl ⟨err, by simp [hcl], hcl⟩)
          | true =>
            simp only [hcl]
            simpa using ih (factory fc) (fc + 1)

/-- Claim C4: every dispatcher call makes at most 6 operation attempts and at
most 6 recreation attempts; if no attempt succeeded and no error was returned
along the way (a fatal verdict or an initialization failure), the call
returns the terminal `ServiceNotCreated`, which is distinct from every
domain error (`DesktopNotFound`, `WindowNotFound`, and every external
`ComError` failure). -/
theorem c4_bounded_attempts_terminal_error {T : Type}
    (cb : VirtualDesktopService → Except Error T)
    (factory : Nat → Except Error VirtualDesktopService)
    (initRes : Except Error Unit) (st : Except Error VirtualDesktopService) :
    (with_service cb factory initRes st).cbCalls ≤ 6
    ∧ (with_service cb factory initRes st).factoryCalls ≤ 6
    ∧ ((∃ r, (with_service cb factory initRes st).result = .ok r)
       ∨ (∃ e, (with_service cb factory initRes st).result = .error e
           ∧ error_side_effect initRes e = .ok false)
       ∨ (∃ e, (with_service cb factory initRes st).result = .error e
           ∧ initRes = .error e)
       ∨ (with_service cb factory initRes st).result =
           .error .ServiceNotCreated)
    ∧ (Error.ServiceNotCreated ≠ Error.DesktopNotFound
       ∧ Error.ServiceNotCreated ≠ Error.WindowNotFound
       ∧ ∀ c : ComError, Error.ServiceNotCreated ≠ Error.ComError c) :=
  ⟨withServiceAux_cbCalls_le cb factory initRes 6 st 0,
   withServiceAux_factoryCalls_le cb factory initRes 6 st 0,
   withServiceAux_result_cases cb factory initRes 6 st 0,
   fun h => Error.noConfusion h, fun h => Error.noConfusion h,
   fun _ h => Error.noConfusion h⟩

/-- Claim C5 counterexample: the claim says that an `Unavailable` snapshot
whose stored reason is Fatal is returned immediately with no recreation.  At
the concrete input — snapshot storing the fatal reason `DesktopNotFound`, a
factory that keeps failing — the dispatcher instead performs 6 recreation
attempts and returns `ServiceNotCreated`, not the stored error. -/
theorem c5_unavailable_fatal_counterexample :
    error_side_effect (.ok ()) .DesktopNotFound = .ok false
    ∧ (with_service
        (fun _ : VirtualDesktopService => (Except.ok () : Except Error Unit))
        (fun _ => .error .DesktopNotFound) (.ok ())
        (.error .DesktopNotFound)).result = .error .ServiceNotCreated
    ∧ (with_service
        (fun _ : VirtualDesktopService => (Except.ok () : Except Error Unit))
        (fun _ => .error .DesktopNotFound) (.ok ())
        (.error .DesktopNotFound)).factoryCalls = 6
    ∧ (with_service
        (fun _ : VirtualDesktopService => (Except.ok () : Except Error Unit))
        (fun _ => .error .DesktopNotFound) (.ok ())
        (.error .DesktopNotFound)).result ≠ .error .DesktopNotFound :=
  ⟨rfl, rfl, rfl, by decide⟩

/-- Claim C5 as amended: when the snapshot is `Unavailable`, the dispatcher
invokes the classifier on the stored reason only for its side effect and
discards the verdict: whatever the stored reason — Recoverable or Fatal — it
always falls through to recreation (one factory call whose result becomes the
new snapshot), and never returns the stored error itself. -/
theorem c5_unavailable_always_recreates {T : Type}
    (cb : VirtualDesktopService → Except Error T)
    (factory : Nat → Except Error VirtualDesktopService)
    (initRes : Except Error Unit) (err : Error) :
    with_service cb factory initRes (.error err) =
      ⟨(withServiceAux cb factory initRes 5 (factory 0) 1).result,
       (withServiceAux cb factory initRes 5 (factory 0) 1).state,
       (withServiceAux cb factory initRes 5 (factory 0) 1).cbCalls,
       (withServiceAux cb factory initRes 5 (factory 0) 1).factoryCalls + 1⟩ :=
  rfl

/-- Forced recreation `notify_explorer_restarted` from src/lib.rs:
`VirtualDesktopService::create()` runs unconditionally and immediately; the
`?` operator returns its failure before the cell is touched; on success the
freshly created handle is stored as `Ok(service)`.  `factoryResult` is the
outcome of the function's single factory call, `st` the prior content of the
`SERVICE` cell; the returned pair is (call outcome, new cell content). -/
def notify_explorer_restarted
    (factoryResult : Except Error VirtualDesktopService)
    (st : Except Error VirtualDesktopService) :
    Except Error Unit × Except Error VirtualDesktopService :=
  match factoryResult with
  | .ok s => (.ok (), .ok s)
  | .error e => (.error e, st)

/-- Claim C6: `notify_explorer_restarted` forces immediate recreation — it
consumes exactly one factory outcome with no retry loop, and on factory
success installs the freshly created handle as the new current state,
whatever was stored before. -/
theorem c6_notify_installs_fresh_handle
    (st : Except Error VirtualDesktopService) (s : VirtualDesktopService) :
    notify_explorer_restarted (.ok s) st = (.ok (), .ok s) := rfl

/-- Claim C10: when the factory call inside `notify_explorer_restarted`
fails, that error is returned and the `SERVICE` cell keeps its previous
content — unlike the dispatcher's recreation step, which stores the factory's
result as the new snapshot even when it is a failure. -/
theorem c10_notify_failure_leaves_state {T : Type}
    (st : Except Error VirtualDesktopService) (e : Error)
    (cb : VirtualDesktopService → Except Error T)
    (factory : Nat → Except Error VirtualDesktopService)
    (initRes : Except Error Unit) (err : Error) :
    notify_explorer_restarted (.error e) st = (.error e, st)
    ∧ (withServiceAux cb factory initRes 1 (.error err) 0).state = factory 0 :=
  ⟨rfl, rfl⟩

/-- Modelled from the spec: the `DesktopEvent` values delivered on the
channel (desktop created/destroyed/moved/renamed, current-desktop-changed),
enumerated by the missing `changelistener` module. -/
inductive VirtualDesktopEvent where
  | DesktopCreated (desktop : DesktopID)
  | DesktopDestroyed (desktop : DesktopID)
  | DesktopMoved (desktop : DesktopID) (oldIndex newIndex : Nat)
  | DesktopRenamed (desktop : DesktopID) (name : String)
  | DesktopChanged (old new : DesktopID)
deriving DecidableEq, Repr

/-- The process-wide globals of src/lib.rs: the `SERVICE` cell, the
`HAS_LISTENERS` flag, and the pending-message queue of the `EVENTS` channel
(a `crossbeam_channel::unbounded`). -/
structure GlobalState where
  service : Except Error VirtualDesktopService
  hasListeners : Bool
  events : List VirtualDesktopEvent
deriving DecidableEq, Repr

/-- A receiver handed out by `get_event_receiver`: `EVENTS.1.clone()`, a
clone of the receiving end of the process-wide channel.  crossbeam_channel
receiver clones all drain the same internal queue, so a clone carries no
state of its own. -/
inductive EventReceiver where
  | handle
deriving DecidableEq, Repr

/-- Sending on the `EVENTS` channel (the sender half, driven by the event
listener): appends the message to the shared unbounded queue. -/
def sendEvent (st : GlobalState) (e : VirtualDesktopEvent) : GlobalState :=
  { st with events := st.events ++ [e] }

/-- Receiving through any cloned receiver, following crossbeam_channel's
documented semantics for cloned receivers: all clones drain one shared queue,
so each message is consumed by exactly one receive. -/
def EventReceiver.recv (_r : EventReceiver) (st : GlobalState) :
    Option VirtualDesktopEvent × GlobalState :=
  match st.events with
  | [] => (none, st)
  | e :: rest => (some e, { st with events := rest })

/-- Event bridge `get_event_receiver` from src/lib.rs: it runs a best-effort
dispatcher call that arms the subscription (`s.get_event_receiver()?`) and
sets `HAS_LISTENERS` on success, discards that call's outcome (`let _res =`),
and returns a clone of the process-wide receiver unconditionally. -/
def get_event_receiver (factory : Nat → Except Error VirtualDesktopService)
    (initRes : Except Error Unit) (st : GlobalState) :
    EventReceiver × GlobalState :=
  let run := with_service (fun s => s.get_event_receiver) factory initRes
    st.service
  let hl := match run.result with
    | .ok _ => true
    | .error _ => st.hasListeners
  (EventReceiver.handle, { st with service := run.state, hasListeners := hl })

/-- Claim C8: `get_event_receiver` has no failure path — for every outcome of
the subscription-arming side effect (every factory behaviour, every
initialization outcome, every prior state, including every failing one) the
failure is swallowed and a clone of the process-wide channel's receiver is
returned, without disturbing the pending events. -/
theorem c8_receiver_always_returned
    (factory : Nat → Except Error VirtualDesktopService)
    (initRes : Except Error Unit) (st : GlobalState) :
    (get_event_receiver factory initRes st).1 = EventReceiver.handle
    ∧ (get_event_receiver factory initRes st).2.events = st.events :=
  ⟨rfl, rfl⟩

/-- Claim C7 counterexample: the claim says both receivers returned by two
`get_event_receiver()` calls observe every event sent after the second call.
At a concrete input — a healthy service, one event sent after both calls —
the first receive (through the first receiver) consumes the event and the
second receiver then observes nothing: the channel is a shared queue, not a
broadcast. -/
theorem c7_broadcast_counterexample :
    (let st0 : GlobalState := ⟨.ok ⟨[0], [1], .ok ()⟩, false, []⟩
     let p1 := get_event_receiver (fun _ => .error .ServiceNotCreated)
       (.ok ()) st0
     let p2 := get_event_receiver (fun _ => .error .ServiceNotCreated)
       (.ok ()) p1.2
     let st3 := sendEvent p2.2 (.DesktopChanged 0 1)
     let q1 := p1.1.recv st3
     let q2 := p2.1.recv q1.2
     q1.1 = some (.DesktopChanged 0 1) ∧ q2.1 = none) :=
  ⟨rfl, rfl⟩

/-- Claim C7 as amended: calling `get_event_receiver()` twice returns two
clones of the single process-wide receiver sharing one unbounded queue; each
event sent after the second call is observed by exactly one receive across
the receivers (competing consumption in queue order), not by every receiver:
with two events sent, one receive on each receiver yields one event each, and
afterwards both receivers observe an empty channel. -/
theorem c7_events_single_consumer (e1 e2 : VirtualDesktopEvent) :
    (let st0 : GlobalState := ⟨.ok ⟨[0], [1], .ok ()⟩, false, []⟩
     let p1 := get_event_receiver (fun _ => .error .ServiceNotCreated)
       (.ok ()) st0
     let p2 := get_event_receiver (fun _ => .error .ServiceNotCreated)
       (.ok ()) p1.2
     let st3 := sendEvent (sendEvent p2.2 e1) e2
     let q1 := p1.1.recv st3
     let q2 := p2.1.recv q1.2
     p1.1 = p2.1
     ∧ q1.1 = some e1 ∧ q2.1 = some e2
     ∧ (p1.1.recv q2.2).1 = none ∧ (p2.1.recv q2.2).1 = none) :=
  ⟨rfl, rfl, rfl, rfl, rfl⟩

/-- A fatal operation failure is returned as the dispatcher call's result. -/
theorem with_service_fatal_result {T : Type}
    (cb : VirtualDesktopService → Except Error T)
    (factory : Nat → Except Error VirtualDesktopService)
    (initRes : Except Error Unit) (v : VirtualDesktopService) (err : Error)
    (hcb : cb v = .error err)
    (hfatal : error_side_effect initRes err = .ok false) :
    (with_service cb factory initRes (.ok v)).result = .error err := by
  rw [with_service, show (6 : Nat) = 5 + 1 from rfl, withServiceAux_ok]
  simp only [hcb, hfatal]

/-- Public wrapper `rename_desktop` from src/lib.rs: one dispatcher call
whose operation resolves the ergonomic index to a desktop identifier
(`s.get_desktop_by_index(desktop)?`) and then renames it. -/
def rename_desktop (factory : Nat → Except Error VirtualDesktopService)
    (initRes : Except Error Unit) (st : Except Error VirtualDesktopService)
    (desktop : Nat) (name : String) : RunResult Unit :=
  with_service
    (fun s =>
      match s.get_desktop_by_index desktop with
      | .ok d => s.rename_desktop d name
      | .error e => .error e)
    factory initRes st

/-- Public wrapper `move_window_to_desktop` from src/lib.rs: one dispatcher
call whose operation resolves the index (`s.get_desktop_by_index(desktop)?`)
and then moves the window to the resolved desktop. -/
def move_window_to_desktop (factory : Nat → Except Error VirtualDesktopService)
    (initRes : Except Error Unit) (st : Except Error VirtualDesktopService)
    (hwnd : HWND) (desktop : Nat) : RunResult Unit :=
  with_service
    (fun s =>
      match s.get_desktop_by_index desktop with
      | .ok d => s.move_window_to_desktop hwnd d
      | .error e => .error e)
    factory initRes st

/-- Claim C9: against a healthy service, `rename_desktop` with an
out-of-range index fails with `DesktopNotFound`; `move_window_to_desktop`
with a nonexistent window handle fails with `WindowNotFound`; and
`move_window_to_desktop` with an out-of-range index fails with
`DesktopNotFound` even when the window handle is valid. -/
theorem c9_boundary_errors
    (factory : Nat → Except Error VirtualDesktopService)
    (initRes : Except Error Unit) (svc : VirtualDesktopService)
    (i j : Nat) (name : String) (hwnd whwnd : HWND) :
    (svc.desktops.length ≤ i →
      (rename_desktop factory initRes (.ok svc) i name).result =
        .error .DesktopNotFound)
    ∧ (svc.windows.contains hwnd = false → j < svc.desktops.length →
      (move_window_to_desktop factory initRes (.ok svc) hwnd j).result =
        .error .WindowNotFound)
    ∧ (svc.windows.contains whwnd = true → svc.desktops.length ≤ i →
      (move_window_to_desktop factory initRes (.ok svc) whwnd i).result =
        .error .DesktopNotFound) := by
  refine ⟨fun hi => ?_, fun hw hj => ?_, fun _hw hi => ?_⟩
  · refine with_service_fatal_result _ factory initRes svc _ ?_ rfl
    simp [VirtualDesktopService.get_desktop_by_index,
      List.getElem?_eq_none hi]
  · refine with_service_fatal_result _ factory initRes svc _ ?_ rfl
    have hw' : hwnd ∉ svc.windows := by simpa using hw
    simp [VirtualDesktopService.get_desktop_by_index,
      List.getElem?_eq_getElem hj,
      VirtualDesktopService.move_window_to_desktop, hw']
  · refine with_service_fatal_result _ factory initRes svc _ ?_ rfl
    simp [VirtualDesktopService.get_desktop_by_index,
      List.getElem?_eq_none hi]

/-- Witness for C9 at a concrete healthy service: two desktops `[5, 7]`, one
window `3`; index 2 is out of range, window 4 does not exist. -/
theorem c9_boundary_errors_witness :
    ((⟨[5, 7], [3], .ok ()⟩ : VirtualDesktopService).desktops.length ≤ 2
     ∧ (rename_desktop (fun _ => .error .ServiceNotCreated) (.ok ())
          (.ok ⟨[5, 7], [3], .ok ()⟩) 2 "Foo").result =
        .error .DesktopNotFound)
    ∧ ((⟨[5, 7], [3], .ok ()⟩ : VirtualDesktopService).windows.contains 4
         = false
       ∧ 0 < (⟨[5, 7], [3], .ok ()⟩ : VirtualDesktopService).desktops.length
       ∧ (move_window_to_desktop (fun _ => .error .ServiceNotCreated) (.ok ())
            (.ok ⟨[5, 7], [3], .ok ()⟩) 4 0).result = .error .WindowNotFound)
    ∧ ((⟨[5, 7], [3], .ok ()⟩ : VirtualDesktopService).windows.contains 3
         = true
       ∧ (⟨[5, 7], [3], .ok ()⟩ : VirtualDesktopService).desktops.length ≤ 2
       ∧ (move_window_to_desktop (fun _ => .error .ServiceNotCreated) (.ok ())
            (.ok ⟨[5, 7], [3], .ok ()⟩) 3 2).result =
          .error .DesktopNotFound) :=
  ⟨⟨by decide,
    (c9_boundary_errors (fun _ => .error .ServiceNotCreated) (.ok ())
      ⟨[5, 7], [3], .ok ()⟩ 2 0 "Foo" 4 3).1 (by decide)⟩,
   ⟨by decide, by decide,
    (c9_boundary_errors (fun _ => .error .ServiceNotCreated) (.ok ())
      ⟨[5, 7], [3], .ok ()⟩ 2 0 "Foo" 4 3).2.1 (by decide) (by decide)⟩,
   ⟨by decide, by decide,
    (c9_boundary_errors (fun _ => .error .ServiceNotCreated) (.ok ())
      ⟨[5, 7], [3], .ok ()⟩ 2 0 "Foo" 4 3).2.2 (by decide) (by decide)⟩⟩

end VDA
